import Mathlib

/-!
# Shallow embedding of the APMS pharmacy-inventory backend

Definitions are translated from the JavaScript source of the repository
(`src/server/...`): the Mongoose schemas (`models/Medicine.js`,
`models/Alert.js`, `models/ActivityLog.js`, the issuance schema), the alert
service (`middleware/alertService.js`), the activity logger
(`middleware/logging.js`) and the Express route handlers
(`routes/medicines.js`, `routes/issuances.js`, `routes/users.js`,
`routes/reports.js`, `routes/dashboard.js`).

Modelling conventions:
* JS `Date` values are modelled as `Int` milliseconds since the epoch; the
  JS idiom `d.setDate(d.getDate() + 30)` is modelled as adding 30 days of
  milliseconds (`addDays`).  The several `new Date()` calls inside one
  handler are modelled as a single instant `now`.
* Mongoose document ids are `Nat`; the store is a `DB` record of lists.
* A mongoose `save` either succeeds or throws; we model it in
  `Except String`.  External (I/O) persistence failure is modelled by a
  `Bool` parameter (`true` = the store accepts the write).
* Each route handler is a pure function from the pre-state and the request
  to the HTTP-level result, the post-state, and the ordered list of write
  attempts it performs (its "write sequence").
-/

namespace APMS

/-- One JS day in milliseconds. -/
def msPerDay : Int := 86400000

/-- Function addDays models the JS idiom `d.setDate(d.getDate() + n)` starting from
instant `t` (calendar irregularities are abstracted to fixed-length days,
identically at every source site that uses the idiom). -/
def addDays (t : Int) (n : Int) : Int := t + n * msPerDay

/-! ## Alert model (`src/server/models/Alert.js`) -/

/-- The closed `enum` of `alertSchema.type` (Alert.js lines 3-8).  Note that
`user_updated` is NOT a member. -/
def alertTypeEnum : List String :=
  ["user_added", "stock_low", "medicine_expiring", "medicine_expired",
   "stock_entry", "medicine_issued", "user_deleted", "medicine_added", "system"]

/-- The `enum` of `alertSchema.severity`. -/
def severityEnum : List String := ["info", "warning", "danger", "success"]

/-- The `enum` of `alertSchema.entityType`. -/
def alertEntityEnum : List String := ["User", "Medicine", "Issuance", "System"]

/-- An alert document (`alertSchema`).  `isRead`/`isActive`/`expiresAt`
defaults mirror the schema; `expiresAt` is creation time + 7 days. -/
structure AlertDoc where
  type : String
  title : String
  message : String
  severity : String := "info"
  entityType : String
  entityId : Nat
  triggeredBy : Nat
  isRead : Bool := false
  isActive : Bool := true
deriving DecidableEq

/-- Mongoose validation of an alert document: `type` must lie in the closed
enum, `title`/`message` are `required` with `maxlength` 200/500, `severity`
and `entityType` must lie in their enums. -/
def alertValid (a : AlertDoc) : Bool :=
  alertTypeEnum.contains a.type &&
  decide (0 < a.title.length) && decide (a.title.length ≤ 200) &&
  decide (0 < a.message.length) && decide (a.message.length ≤ 500) &&
  severityEnum.contains a.severity &&
  alertEntityEnum.contains a.entityType

/-- Mongoose alert.save: throws a ValidationError when the document violates the
schema, throws a persistence error when the store rejects the write
(`ioOk = false`), and otherwise returns the saved document. -/
def saveAlert (a : AlertDoc) (ioOk : Bool) : Except String AlertDoc :=
  if !alertValid a then .error "ValidationError"
  else if !ioOk then .error "persistence failure"
  else .ok a

/-! ## Alert service (`src/server/middleware/alertService.js`) -/

/-- Function createAlert (alertService.js lines 3-20): builds the document, tries
`save`, and catches ANY error (`console.error` and fall through, returning
`undefined`).  The outer `Except` layer is what the caller can observe: the
function never propagates an error. -/
def createAlert (type title message entityType : String)
    (entityId triggeredBy : Nat) (severity : String) (ioOk : Bool) :
    Except String (Option AlertDoc) :=
  match saveAlert
      { type := type, title := title, message := message,
        severity := severity, entityType := entityType,
        entityId := entityId, triggeredBy := triggeredBy } ioOk with
  | .ok a => .ok (some a)
  | .error _ => .ok none

/-- The `alerts` template table of `createUserAlert` (alertService.js lines
22-43): action ↦ (type, title, message, severity).  The `updated` entry
carries type `user_updated`, which is not in `alertTypeEnum`. -/
def userAlertTemplate (action userName : String) :
    Option (String × String × String × String) :=
  if action = "added" then
    some ("user_added", "New User Added",
      "New user \"" ++ userName ++ "\" has been added to the system",
      "success")
  else if action = "updated" then
    some ("user_updated", "User Updated",
      "User \"" ++ userName ++ "\" details have been updated",
      "info")
  else if action = "deleted" then
    some ("user_deleted", "User Deleted",
      "User \"" ++ userName ++ "\" has been removed from the system",
      "warning")
  else none

/-- Function createUserAlert (alertService.js lines 22-56): looks the action up in
the template table and, when found, delegates to `createAlert` with
entityType `User`. -/
def createUserAlert (action userName : String) (userId triggeredBy : Nat)
    (ioOk : Bool) : Except String (Option AlertDoc) :=
  match userAlertTemplate action userName with
  | some (ty, ti, msg, sev) =>
      createAlert ty ti msg "User" userId triggeredBy sev ioOk
  | none => .ok none

/-- The `additionalInfo` argument of `createMedicineAlert`. -/
structure AddInfo where
  quantity : Option Int := none
  recipient : Option String := none
  expiryDate : Option String := none
deriving DecidableEq

/-- JS `additionalInfo.quantity || dflt` rendered into a message: `0`,
like a missing field, is falsy and yields the default. -/
def jsNumOr (v : Option Int) (dflt : String) : String :=
  match v with
  | some n => if n = 0 then dflt else toString n
  | none => dflt

/-- JS `additionalInfo.recipient` with the fallback string N/A. -/
def jsStrOr (v : Option String) (dflt : String) : String :=
  match v with
  | some s => if s = "" then dflt else s
  | none => dflt

/-- The `alerts` template table of `createMedicineAlert` (alertService.js
lines 58-96): action ↦ (type, title, message, severity). -/
def medicineAlertTemplate (action medicineName : String) (info : AddInfo) :
    Option (String × String × String × String) :=
  if action = "added" then
    some ("medicine_added", "New Medicine Added",
      "New medicine \"" ++ medicineName ++ "\" has been added to inventory",
      "success")
  else if action = "stock_entry" then
    some ("stock_entry", "Stock Entry Recorded",
      "Stock entry for \"" ++ medicineName ++
        "\" has been recorded. New quantity: " ++ jsNumOr info.quantity "N/A",
      "info")
  else if action = "low_stock" then
    some ("stock_low", "Low Stock Alert",
      "\"" ++ medicineName ++ "\" is running low. Current stock: " ++
        jsNumOr info.quantity "0",
      "warning")
  else if action = "expiring" then
    some ("medicine_expiring", "Medicine Expiring Soon",
      "\"" ++ medicineName ++ "\" will expire on " ++
        jsStrOr info.expiryDate "N/A",
      "warning")
  else if action = "expired" then
    some ("medicine_expired", "Medicine Expired",
      "\"" ++ medicineName ++ "\" has expired and should be removed from inventory",
      "danger")
  else if action = "issued" then
    some ("medicine_issued", "Medicine Issued",
      jsNumOr info.quantity "0" ++ " units of \"" ++ medicineName ++
        "\" issued to " ++ jsStrOr info.recipient "N/A",
      "info")
  else none

/-- The alert document `createMedicineAlert` would hand to `createAlert`
(entityType `Medicine`), or `none` when the action has no template. -/
def medicineAlertDoc (action medicineName : String)
    (medicineId triggeredBy : Nat) (info : AddInfo) : Option AlertDoc :=
  (medicineAlertTemplate action medicineName info).map fun t =>
    { type := t.1, title := t.2.1, message := t.2.2.1, severity := t.2.2.2,
      entityType := "Medicine", entityId := medicineId,
      triggeredBy := triggeredBy }

/-- Function createMedicineAlert (alertService.js lines 58-110): template lookup,
then `createAlert`; never propagates an error. -/
def createMedicineAlert (action medicineName : String)
    (medicineId triggeredBy : Nat) (info : AddInfo) (ioOk : Bool) :
    Except String (Option AlertDoc) :=
  match medicineAlertTemplate action medicineName info with
  | some (ty, ti, msg, sev) =>
      createAlert ty ti msg "Medicine" medicineId triggeredBy sev ioOk
  | none => .ok none

/-! ## Expiry / low-stock classification predicates

Each predicate is translated from its own source site; the refinement claim
compares them. -/

/-- Stock-check policy "expiring" test (alertService.js line 124):
`medicine.expiryDate <= thirtyDaysFromNow && medicine.expiryDate > new Date()`. -/
def policyExpiring (now expiry : Int) : Bool :=
  decide (expiry ≤ addDays now 30) && decide (expiry > now)

/-- Stock-check policy "expired" test (alertService.js line 131):
`medicine.expiryDate <= new Date()`. -/
def policyExpired (now expiry : Int) : Bool :=
  decide (expiry ≤ now)

/-- Dashboard "expiring" query (dashboard.js lines 24-28):
`expiryDate: { $lte: thirtyDaysFromNow, $gt: new Date() }`. -/
def dashboardExpiring (now expiry : Int) : Bool :=
  decide (expiry ≤ addDays now 30) && decide (expiry > now)

/-- Medicine-listing / stock-report "expiring" filter (medicines.js lines
35-39, reports.js lines 34-37): `{ $lte: thirtyDaysFromNow, $gt: new Date() }`. -/
def listingExpiring (now expiry : Int) : Bool :=
  decide (expiry ≤ addDays now 30) && decide (expiry > now)

/-- Expiry-report "expired" query (reports.js lines 143-146):
`expiryDate: { $lt: now }` — strict. -/
def reportExpired (now expiry : Int) : Bool :=
  decide (expiry < now)

/-- Expiry-report "expiring within 30 days" query (reports.js lines 149-152):
`expiryDate: { $gte: now, $lte: thirtyDaysFromNow }` — inclusive below. -/
def reportExpiringSoon (now expiry : Int) : Bool :=
  decide (now ≤ expiry) && decide (expiry ≤ addDays now 30)

/-! ## Activity log (`models/ActivityLog.js`, `middleware/logging.js`) -/

/-- The `enum` of `activityLogSchema.actionType`. -/
def actionTypeEnum : List String :=
  ["Add", "Update", "Delete", "Issue", "Login", "Logout", "Stock In", "Stock Out"]

/-- The `enum` of `activityLogSchema.entityType`. -/
def activityEntityEnum : List String := ["Medicine", "User", "Issuance", "System"]

/-- An activity-log document (`activityLogSchema`; the opaque
`oldData`/`newData` snapshots are kept as quantity pairs where the routes
record them, `none` otherwise). -/
structure ActivityEntry where
  actionType : String
  entityType : String
  entityId : Nat
  performedBy : Nat
  description : String
  oldQuantity : Option Int := none
  newQuantity : Option Int := none
deriving DecidableEq

/-- Mongoose validation of an activity entry: enums plus required
`description` with `maxlength` 500. -/
def activityValid (e : ActivityEntry) : Bool :=
  actionTypeEnum.contains e.actionType &&
  activityEntityEnum.contains e.entityType &&
  decide (0 < e.description.length) && decide (e.description.length ≤ 500)

/-- Mongoose save of a log entry in `logActivity`. -/
def saveActivity (e : ActivityEntry) (ioOk : Bool) : Except String ActivityEntry :=
  if !activityValid e then .error "ValidationError"
  else if !ioOk then .error "persistence failure"
  else .ok e

/-- Function logActivity (logging.js): builds the entry, tries `save`, catches ANY
error (`console.error` only).  Never propagates an error to the caller. -/
def logActivity (e : ActivityEntry) (ioOk : Bool) : Except String Unit :=
  match saveActivity e ioOk with
  | .ok _ => .ok ()
  | .error _ => .ok ()

/-! ## Medicine model (`src/unnamed/part_001`, the Mongoose medicine schema) -/

/-- The `enum` of `medicineSchema.category`. -/
def categoryEnum : List String :=
  ["Antibiotics", "Painkillers", "Supplements", "Vaccines", "Antiseptics",
   "Cardiovascular", "Respiratory", "Digestive", "Neurological", "Other"]

/-- A medicine document.  Defaults mirror the schema (`quantity` 0,
`initialStock` 0, `minQuantity` 10, `isActive` true); `name`, `price` and
`expiryDate` are `required` and always supplied by the create route.
`stockOut` is a virtual (computed, never stored) — see `Medicine.stockOut`. -/
structure Medicine where
  id : Nat
  name : String := ""
  barcode : Option String := none
  category : String := "Other"
  quantity : Int := 0
  initialStock : Int := 0
  minQuantity : Int := 10
  price : Int := 0
  expiryDate : Int := 0
  supplier : Option String := none
  batchNumber : Option String := none
  description : Option String := none
  isActive : Bool := true
  createdBy : Nat := 0
  updatedBy : Option Nat := none
deriving DecidableEq

/-- Virtual `isLowStock` (part_001): `this.quantity <= this.minQuantity`. -/
def Medicine.isLowStock (m : Medicine) : Bool :=
  decide (m.quantity ≤ m.minQuantity)

/-- Virtual `isExpired` (part_001): `new Date() > this.expiryDate`. -/
def Medicine.isExpired (now : Int) (m : Medicine) : Bool :=
  decide (now > m.expiryDate)

/-- Virtual `isExpiringSoon` (part_001). -/
def Medicine.isExpiringSoon (now : Int) (m : Medicine) : Bool :=
  decide (m.expiryDate ≤ addDays now 30) && decide (m.expiryDate > now)

/-- Virtual `stockOut` (part_001 lines 106-108): calculated, not stored:
`(this.initialStock || 0) - (this.quantity || 0)`.  Route-level assignments
to `stockOut` (medicines.js `stockOut: 0`, `medicine.stockOut = ...`) hit a
getter-only virtual under strict mode and change nothing. -/
def Medicine.stockOut (m : Medicine) : Int :=
  m.initialStock - m.quantity

/-! ## Stock-check policy (`checkAndCreateStockAlerts`) -/

/-- Function checkAndCreateStockAlerts (alertService.js lines 112-136) as the
ordered list of alert documents it emits (each emission is one
`createMedicineAlert` call, which persists best-effort): a `low_stock`
emission when `medicine.quantity <= medicine.minQuantity`, an `expiring`
emission when `expiryDate <= thirtyDaysFromNow && expiryDate > now`, and an
`expired` emission when `expiryDate <= now`, in that order.  The rendered
`toDateString()` is abstracted to the decimal expiry timestamp. -/
def stockCheckEmissions (m : Medicine) (triggeredBy : Nat) (now : Int) :
    List AlertDoc :=
  (if m.quantity ≤ m.minQuantity then
    (medicineAlertDoc "low_stock" m.name m.id triggeredBy
      { quantity := some m.quantity }).toList
  else []) ++
  (if m.expiryDate ≤ addDays now 30 ∧ m.expiryDate > now then
    (medicineAlertDoc "expiring" m.name m.id triggeredBy
      { expiryDate := some (toString m.expiryDate) }).toList
  else []) ++
  (if m.expiryDate ≤ now then
    (medicineAlertDoc "expired" m.name m.id triggeredBy
      { expiryDate := some (toString m.expiryDate) }).toList
  else [])

/-! ## Issuance model (`src/unnamed/part_000`, the Mongoose issuance schema) -/

/-- The `enum` of `issuanceSchema.issuedTo`. -/
def issuedToEnum : List String := ["GIZ Guest", "AZI Guest", "Employee"]

/-- An issuance document (`issuanceSchema`): append-only ledger entry. -/
structure Issuance where
  medicineId : Nat := 0
  issuedTo : String := "Employee"
  recipientName : String := "R"
  recipientID : String := "0"
  quantityIssued : Int := 1
  prescribedBy : String := "Dr"
  notes : Option String := none
  issuedBy : Nat := 0
  issuedAt : Int := 0
deriving DecidableEq

/-- A user document (`models/User.js`, seen through `routes/users.js`). -/
structure User where
  id : Nat
  name : String := ""
  email : String := ""
  role : String := "Pharmacist"
  isActive : Bool := true
deriving DecidableEq

/-! ## Store state and write events -/

/-- The four collections of the document store (plus the user collection and
a fresh-id counter standing in for ObjectId generation). -/
structure DB where
  medicines : List Medicine := []
  issuances : List Issuance := []
  activities : List ActivityEntry := []
  alerts : List AlertDoc := []
  users : List User := []
  nextId : Nat := 0
deriving DecidableEq

/-- One write attempt of a route handler, in program order.
`medicineSave` records the quantity the handler read before mutating
(`oldQuantity` in the source) together with the saved document. -/
inductive WriteEvent where
  | issuanceSave (i : Issuance)
  | medicineInsert (m : Medicine)
  | medicineSave (oldQuantity : Int) (m : Medicine)
  | activitySave (e : ActivityEntry)
  | alertSave (a : AlertDoc)
  | userSave (u : User)
deriving DecidableEq

/-- Did this `Except`-returning save succeed? -/
def saveOk {α : Type} (r : Except String α) : Bool :=
  match r with
  | .ok _ => true
  | .error _ => false

/-- Mongoose findById over the medicines collection. -/
def findById (l : List Medicine) (i : Nat) : Option Medicine :=
  l.find? fun m => decide (m.id = i)

/-- Mongoose save on an already-loaded medicine document: replace the document
with the same `_id`. -/
def saveMed (l : List Medicine) (u : Medicine) : List Medicine :=
  l.map fun x => if x.id = u.id then u else x

/-- The alerts that actually land in the store out of an ordered emission
list, under store acceptance `ioOk` (each `createAlert` catches failures). -/
def persistedAlerts (docs : List AlertDoc) (ioOk : Bool) : List AlertDoc :=
  docs.filter fun a => saveOk (saveAlert a ioOk)

/-- The activity entries that land in the store (`logActivity` catches
failures). -/
def persistedLog (e : ActivityEntry) (ioOk : Bool) : List ActivityEntry :=
  if saveOk (saveActivity e ioOk) then [e] else []

/-! ## Issue-medicine route (`routes/issuances.js`, the POST route) -/

/-- The request body of POST /api/issuances. -/
structure IssueReq where
  medicineId : Nat := 0
  issuedTo : String := "Employee"
  recipientName : String := "R"
  recipientID : String := "0"
  quantityIssued : Int := 1
  prescribedBy : String := "Dr"
  notes : Option String := none
deriving DecidableEq

/-- The express-validator chain of the route (issuances.js lines 79-86). -/
def issueReqValid (r : IssueReq) : Bool :=
  issuedToEnum.contains r.issuedTo &&
  decide (1 ≤ r.recipientName.length) && decide (r.recipientName.length ≤ 200) &&
  decide (1 ≤ r.recipientID.length) && decide (r.recipientID.length ≤ 100) &&
  decide (1 ≤ r.quantityIssued) &&
  decide (1 ≤ r.prescribedBy.length) && decide (r.prescribedBy.length ≤ 200) &&
  (match r.notes with
   | some s => decide (s.length ≤ 500)
   | none => true)

/-- HTTP-level result of the issue route. -/
inductive IssueResp where
  | validationError
  | notFound (msg : String)
  | badRequest (msg : String)
  | created (i : Issuance)
deriving DecidableEq

/-- The insufficient-stock message of issuances.js line 104. -/
def insufficientMsg (available requested : Int) : String :=
  "Insufficient stock. Available: " ++ toString available ++
    ", Requested: " ++ toString requested

/-- POST /api/issuances (issuances.js lines 79-161), step by step from the
source: validation; `Medicine.findById` with not-found/inactive guard;
insufficient-stock guard (`medicine.quantity < quantityIssued`); expiry
guard (`medicine.expiryDate <= new Date()`); `issuance.save()`; then the
stock decrement `medicine.quantity -= quantityIssued; medicine.save()`;
then `logActivity`, `createMedicineAlert` for the issued action and
`checkAndCreateStockAlerts(medicine)` — all best-effort.  Returns the
response, the post-state, and the ordered write attempts. -/
def issuancesPost (db : DB) (req : IssueReq) (actor : Nat) (now : Int)
    (ioLog ioAlert : Bool) : IssueResp × DB × List WriteEvent :=
  if !issueReqValid req then (.validationError, db, [])
  else
    match findById db.medicines req.medicineId with
    | none => (.notFound "Medicine not found", db, [])
    | some medicine =>
      if !medicine.isActive then (.notFound "Medicine not found", db, [])
      else if medicine.quantity < req.quantityIssued then
        (.badRequest (insufficientMsg medicine.quantity req.quantityIssued), db, [])
      else if medicine.expiryDate ≤ now then
        (.badRequest "Cannot issue expired medicine", db, [])
      else
        let issuance : Issuance :=
          { medicineId := req.medicineId, issuedTo := req.issuedTo,
            recipientName := req.recipientName, recipientID := req.recipientID,
            quantityIssued := req.quantityIssued,
            prescribedBy := req.prescribedBy, notes := req.notes,
            issuedBy := actor, issuedAt := now }
        let oldQuantity := medicine.quantity
        let updated : Medicine :=
          { medicine with quantity := medicine.quantity - req.quantityIssued,
                          updatedBy := some actor }
        let logE : ActivityEntry :=
          { actionType := "Issue", entityType := "Medicine",
            entityId := medicine.id, performedBy := actor,
            description := "Issued " ++ toString req.quantityIssued ++
              " units of " ++ medicine.name ++ " to " ++ req.recipientName ++
              " (" ++ req.issuedTo ++ ")",
            oldQuantity := some oldQuantity,
            newQuantity := some updated.quantity }
        let alertDocs : List AlertDoc :=
          (medicineAlertDoc "issued" medicine.name medicine.id actor
            { quantity := some req.quantityIssued,
              recipient := some req.recipientName }).toList ++
          stockCheckEmissions updated actor now
        ( .created issuance,
          { db with
              issuances := db.issuances ++ [issuance],
              medicines := saveMed db.medicines updated,
              activities := db.activities ++ persistedLog logE ioLog,
              alerts := db.alerts ++ persistedAlerts alertDocs ioAlert },
          [.issuanceSave issuance, .medicineSave oldQuantity updated,
           .activitySave logE] ++ alertDocs.map .alertSave )

/-! ## Medicine routes (`routes/medicines.js`) -/

/-- The request body of POST /api/medicines. -/
structure CreateReq where
  name : String := "Med"
  category : String := "Other"
  quantity : Int := 0
  minQuantity : Int := 1
  price : Int := 0
  expiryDate : Int := 0
  barcode : Option String := none
  supplier : Option String := none
  batchNumber : Option String := none
  description : Option String := none
deriving DecidableEq

/-- The express-validator chain of the create route (medicines.js lines
72-82). -/
def createReqValid (r : CreateReq) : Bool :=
  decide (1 ≤ r.name.length) && decide (r.name.length ≤ 200) &&
  categoryEnum.contains r.category &&
  decide (0 ≤ r.quantity) && decide (1 ≤ r.minQuantity) &&
  decide (0 ≤ r.price) &&
  (match r.barcode with
   | some b => decide (b.length ≤ 100)
   | none => true) &&
  (match r.supplier with
   | some s => decide (s.length ≤ 200)
   | none => true) &&
  (match r.batchNumber with
   | some s => decide (s.length ≤ 100)
   | none => true) &&
  (match r.description with
   | some s => decide (s.length ≤ 500)
   | none => true)

/-- The application-level duplicate check of the create route (medicines.js
line 96): `Medicine.findOne({ barcode, isActive: true })`. -/
def activeBarcodeExists (l : List Medicine) (b : String) : Bool :=
  l.any fun m => decide (m.barcode = some b) && m.isActive

/-- The schema-level unique sparse index on `barcode` (part_001 lines
10-15): an insert or a barcode-modifying save throws `E11000` when ANY other
document — active or soft-deleted — carries the same barcode value. -/
def barcodeIndexConflict (l : List Medicine) (excludeId : Option Nat)
    (b : Option String) : Bool :=
  match b with
  | none => false
  | some s =>
      l.any fun m =>
        decide (m.barcode = some s) &&
        (match excludeId with
         | some i => !decide (m.id = i)
         | none => true)

/-- HTTP-level result of the create route. -/
inductive CreateResp where
  | validationError
  | badRequest (msg : String)
  | created (m : Medicine)
deriving DecidableEq

/-- POST /api/medicines (medicines.js lines 72-112): validation; the
active-scoped duplicate-barcode pre-check when a barcode is supplied (JS
truthiness, so the empty string skips it); `medicine.save()` with
`initialStock = quantity` (the `stockOut: 0` assignment hits a virtual) —
where the global unique index can still throw `E11000`, which the catch
maps to the same duplicate-barcode 400; then `logActivity`,
`createMedicineAlert` for the added action and `checkAndCreateStockAlerts`. -/
def medicinesPost (db : DB) (req : CreateReq) (actor : Nat) (now : Int)
    (ioLog ioAlert : Bool) : CreateResp × DB × List WriteEvent :=
  if !createReqValid req then (.validationError, db, [])
  else if (req.barcode.map fun b =>
             !decide (b = "") && activeBarcodeExists db.medicines b).getD false then
    (.badRequest "Medicine with this barcode already exists", db, [])
  else
    let newMed : Medicine :=
      { id := db.nextId, name := req.name, barcode := req.barcode,
        category := req.category, quantity := req.quantity,
        initialStock := req.quantity, minQuantity := req.minQuantity,
        price := req.price, expiryDate := req.expiryDate,
        supplier := req.supplier, batchNumber := req.batchNumber,
        description := req.description, isActive := true, createdBy := actor }
    if barcodeIndexConflict db.medicines none newMed.barcode then
      (.badRequest "Medicine with this barcode already exists", db, [])
    else
      let logE : ActivityEntry :=
        { actionType := "Add", entityType := "Medicine", entityId := newMed.id,
          performedBy := actor,
          description := "Added new medicine: " ++ newMed.name }
      let alertDocs : List AlertDoc :=
        (medicineAlertDoc "added" newMed.name newMed.id actor {}).toList ++
        stockCheckEmissions newMed actor now
      ( .created newMed,
        { db with
            medicines := db.medicines ++ [newMed],
            nextId := db.nextId + 1,
            activities := db.activities ++ persistedLog logE ioLog,
            alerts := db.alerts ++ persistedAlerts alertDocs ioAlert },
        [.medicineInsert newMed, .activitySave logE] ++
          alertDocs.map .alertSave )

/-- The request body of PUT /api/medicines/:id.  `stockToAdd` is read by the
handler (`parseInt(req.body.stockToAdd) || 0`) though no validator covers
it; a missing or non-numeric value reads as 0. -/
structure UpdateBody where
  name : Option String := none
  category : Option String := none
  quantity : Option Int := none
  minQuantity : Option Int := none
  price : Option Int := none
  expiryDate : Option Int := none
  barcode : Option String := none
  supplier : Option String := none
  batchNumber : Option String := none
  description : Option String := none
  stockToAdd : Option Int := none
deriving DecidableEq

/-- The express-validator chain of the update route (medicines.js lines
115-125); every field is optional. -/
def updateBodyValid (b : UpdateBody) : Bool :=
  (match b.name with
   | some s => decide (1 ≤ s.length) && decide (s.length ≤ 200)
   | none => true) &&
  (match b.category with
   | some c => categoryEnum.contains c
   | none => true) &&
  (match b.quantity with
   | some q => decide (0 ≤ q)
   | none => true) &&
  (match b.minQuantity with
   | some q => decide (1 ≤ q)
   | none => true) &&
  (match b.price with
   | some p => decide (0 ≤ p)
   | none => true) &&
  (match b.barcode with
   | some s => decide (s.length ≤ 100)
   | none => true) &&
  (match b.supplier with
   | some s => decide (s.length ≤ 200)
   | none => true) &&
  (match b.batchNumber with
   | some s => decide (s.length ≤ 100)
   | none => true) &&
  (match b.description with
   | some s => decide (s.length ≤ 500)
   | none => true)

/-- HTTP-level result of the update / delete routes. -/
inductive UpdResp where
  | validationError
  | notFound
  | badRequest (msg : String)
  | ok (m : Medicine)
deriving DecidableEq

/-- PUT /api/medicines/:id (medicines.js lines 115-178): validation; load
with not-found/inactive guard; the app-level duplicate-barcode check, run
only when the body carries a truthy barcode different from the current one,
excluding the id of the record itself and scoped to active records; the
`stockToAdd` restock applied to `quantity` AND `initialStock` before the
`Object.assign` field edits (which cover name, category, price, expiryDate,
supplier, batchNumber, barcode, description — NOT `quantity`, NOT
`minQuantity`); the `medicine.stockOut = ...` assignment hits a getter-only
virtual; `medicine.save()` (the unique index throws `E11000` only when the
barcode path was modified, mapped to the duplicate-barcode 400); then
`logActivity`, the conditional `createMedicineAlert` for the stock-entry action
gated on `req.body.quantity && req.body.quantity > oldQuantity`, and
finally `checkAndCreateStockAlerts` on the post-update document. -/
def medicinesPut (db : DB) (id : Nat) (body : UpdateBody) (actor : Nat)
    (now : Int) (ioLog ioAlert : Bool) : UpdResp × DB × List WriteEvent :=
  if !updateBodyValid body then (.validationError, db, [])
  else
    match findById db.medicines id with
    | none => (.notFound, db, [])
    | some medicine =>
      if !medicine.isActive then (.notFound, db, [])
      else if (body.barcode.map fun b =>
                 !decide (b = "") && !decide (some b = medicine.barcode) &&
                 (db.medicines.any fun m2 =>
                   decide (m2.barcode = some b) && m2.isActive &&
                   !decide (m2.id = medicine.id))).getD false then
        (.badRequest "Medicine with this barcode already exists", db, [])
      else
        let oldQuantity := medicine.quantity
        let stockToAdd := body.stockToAdd.getD 0
        let afterStock : Medicine :=
          if stockToAdd > 0 then
            { medicine with quantity := medicine.quantity + stockToAdd,
                            initialStock := medicine.initialStock + stockToAdd }
          else medicine
        let updated : Medicine :=
          { afterStock with
              name := body.name.getD medicine.name,
              category := body.category.getD medicine.category,
              price := body.price.getD medicine.price,
              expiryDate := body.expiryDate.getD medicine.expiryDate,
              supplier := body.supplier.orElse fun _ => medicine.supplier,
              batchNumber := body.batchNumber.orElse fun _ => medicine.batchNumber,
              barcode := body.barcode.orElse fun _ => medicine.barcode,
              description := body.description.orElse fun _ => medicine.description,
              updatedBy := some actor }
        if !decide (updated.barcode = medicine.barcode) &&
            barcodeIndexConflict db.medicines (some medicine.id)
              updated.barcode then
          (.badRequest "Medicine with this barcode already exists", db, [])
        else
          let logE : ActivityEntry :=
            { actionType := "Update", entityType := "Medicine",
              entityId := medicine.id, performedBy := actor,
              description := "Updated medicine: " ++ updated.name,
              oldQuantity := some oldQuantity,
              newQuantity := some updated.quantity }
          let seCond : Bool :=
            (body.quantity.map fun bq =>
              !decide (bq = 0) && decide (bq > oldQuantity)).getD false
          let seDocs : List AlertDoc :=
            if seCond then
              (medicineAlertDoc "stock_entry" updated.name medicine.id actor
                { quantity := some updated.quantity }).toList
            else []
          let alertDocs : List AlertDoc :=
            seDocs ++ stockCheckEmissions updated actor now
          ( .ok updated,
            { db with
                medicines := saveMed db.medicines updated,
                activities := db.activities ++ persistedLog logE ioLog,
                alerts := db.alerts ++ persistedAlerts alertDocs ioAlert },
            [.medicineSave oldQuantity updated, .activitySave logE] ++
              alertDocs.map .alertSave )

/-- DELETE /api/medicines/:id (medicines.js lines 181-197): soft delete —
load with not-found/inactive guard, set `isActive = false`, save (the
barcode path is unmodified, so the unique index is not re-checked), then
`logActivity`.  Quantity is untouched. -/
def medicinesDelete (db : DB) (id : Nat) (actor : Nat) (ioLog : Bool) :
    UpdResp × DB × List WriteEvent :=
  match findById db.medicines id with
  | none => (.notFound, db, [])
  | some medicine =>
    if !medicine.isActive then (.notFound, db, [])
    else
      let updated : Medicine :=
        { medicine with isActive := false, updatedBy := some actor }
      let logE : ActivityEntry :=
        { actionType := "Delete", entityType := "Medicine",
          entityId := medicine.id, performedBy := actor,
          description := "Deleted medicine: " ++ medicine.name }
      ( .ok updated,
        { db with
            medicines := saveMed db.medicines updated,
            activities := db.activities ++ persistedLog logE ioLog },
        [.medicineSave medicine.quantity updated, .activitySave logE] )

/-! ## User update route (`src/unnamed/part_002`, the PUT route) -/

/-- The request body of PUT /api/users/:id. -/
structure UserBody where
  name : Option String := none
  email : Option String := none
  role : Option String := none
  isActive : Option Bool := none
deriving DecidableEq

/-- A stand-in for the express-validator isEmail check (external library,
abstracted to the presence of an at-sign). -/
def emailLike (s : String) : Bool :=
  s.any fun c => c == '@'

/-- The express-validator chain of the user-update route (part_002). -/
def userBodyValid (b : UserBody) : Bool :=
  (match b.name with
   | some s => decide (2 ≤ s.length) && decide (s.length ≤ 100)
   | none => true) &&
  (match b.email with
   | some e => emailLike e
   | none => true) &&
  (match b.role with
   | some r => (["Admin", "Pharmacist"] : List String).contains r
   | none => true)

/-- HTTP-level result of the user-update route. -/
inductive UserResp where
  | validationError
  | notFound
  | badRequest (msg : String)
  | ok (u : User)
deriving DecidableEq

/-- PUT /api/users/:id (part_002 lines 97-141): validation; load with
not-found guard; changed-email duplicate check excluding the own id;
`Object.assign(user, req.body)`; `user.save()`; then `logActivity` and
`createUserAlert` for the updated action — whose document of type `user_updated`
always fails the Alert-schema enum and is swallowed by `createAlert`. -/
def usersPut (db : DB) (id : Nat) (body : UserBody) (actor : Nat)
    (ioLog ioAlert : Bool) : UserResp × DB × List WriteEvent :=
  if !userBodyValid body then (.validationError, db, [])
  else
    match db.users.find? (fun u => decide (u.id = id)) with
    | none => (.notFound, db, [])
    | some user =>
      if (body.email.map fun e =>
            !decide (e = user.email) &&
            (db.users.any fun u2 =>
              decide (u2.email = e) && !decide (u2.id = user.id))).getD false then
        (.badRequest "User with this email already exists", db, [])
      else
        let updated : User :=
          { user with
              name := body.name.getD user.name,
              email := body.email.getD user.email,
              role := body.role.getD user.role,
              isActive := body.isActive.getD user.isActive }
        let logE : ActivityEntry :=
          { actionType := "Update", entityType := "User",
            entityId := user.id, performedBy := actor,
            description := "Updated user: " ++ updated.name }
        let alertDocs : List AlertDoc :=
          (userAlertTemplate "updated" updated.name).toList.map fun t =>
            { type := t.1, title := t.2.1, message := t.2.2.1,
              severity := t.2.2.2, entityType := "User",
              entityId := user.id, triggeredBy := actor }
        ( .ok updated,
          { db with
              users := db.users.map fun x => if x.id = user.id then updated else x,
              activities := db.activities ++ persistedLog logE ioLog,
              alerts := db.alerts ++ persistedAlerts alertDocs ioAlert },
          [.userSave updated, .activitySave logE] ++
            alertDocs.map .alertSave )

/-! ## Write-sequence classifiers and the operation semantics -/

/-- Is this write the ledger append (`issuance.save()`)? -/
def isLedgerAppend (e : WriteEvent) : Bool :=
  match e with
  | .issuanceSave _ => true
  | _ => false

/-- Is this write a stock decrement: a medicine save whose stored quantity is
strictly below the quantity the handler read? -/
def isStockDecrement (e : WriteEvent) : Bool :=
  match e with
  | .medicineSave oldQuantity m => decide (m.quantity < oldQuantity)
  | _ => false

/-- Is this write the persistence of a `stock_entry` alert? -/
def isStockEntryWrite (e : WriteEvent) : Bool :=
  match e with
  | .alertSave a => decide (a.type = "stock_entry")
  | _ => false

/-- Is this write the persistence of a stock-check-policy alert
(`stock_low` / `medicine_expiring` / `medicine_expired`)? -/
def isStockCheckWrite (e : WriteEvent) : Bool :=
  match e with
  | .alertSave a =>
      decide (a.type = "stock_low") || decide (a.type = "medicine_expiring") ||
        decide (a.type = "medicine_expired")
  | _ => false

/-- A mutation of the medicine stores: one request against one of the four
write paths that touch the medicines collection. -/
inductive Op where
  | create (req : CreateReq) (actor : Nat)
  | update (id : Nat) (body : UpdateBody) (actor : Nat)
  | issue (req : IssueReq) (actor : Nat)
  | softDelete (id : Nat) (actor : Nat)
deriving DecidableEq

/-- The post-state of one operation. -/
def applyOp (now : Int) (ioLog ioAlert : Bool) (db : DB) (op : Op) : DB :=
  match op with
  | .create req actor => (medicinesPost db req actor now ioLog ioAlert).2.1
  | .update id body actor => (medicinesPut db id body actor now ioLog ioAlert).2.1
  | .issue req actor => (issuancesPost db req actor now ioLog ioAlert).2.1
  | .softDelete id actor => (medicinesDelete db id actor ioLog).2.1

/-- The write sequence of one operation. -/
def opTrace (now : Int) (ioLog ioAlert : Bool) (db : DB) (op : Op) :
    List WriteEvent :=
  match op with
  | .create req actor => (medicinesPost db req actor now ioLog ioAlert).2.2
  | .update id body actor => (medicinesPut db id body actor now ioLog ioAlert).2.2
  | .issue req actor => (issuancesPost db req actor now ioLog ioAlert).2.2
  | .softDelete id actor => (medicinesDelete db id actor ioLog).2.2

/-- Run a sequence of operations. -/
def runOps (now : Int) (ioLog ioAlert : Bool) (ops : List Op) (db : DB) : DB :=
  ops.foldl (applyOp now ioLog ioAlert) db

/-- The stock soundness predicate of one medicine document: non-negative
quantity never exceeding `initialStock` (so the `stockOut` virtual is
non-negative). -/
def stockSound (m : Medicine) : Bool :=
  decide (0 ≤ m.quantity) && decide (m.quantity ≤ m.initialStock)

/-- Does a stock decrement occur strictly before the first ledger append in
a write sequence?  (The order the spec asserts for the issue route.) -/
def decrementPrecedesAppend (tr : List WriteEvent) : Bool :=
  match tr.findIdx? isStockDecrement, tr.findIdx? isLedgerAppend with
  | some i, some j => decide (i < j)
  | _, _ => false

/-! ## Concrete fixtures used by witnesses and counterexamples -/

/-- An active, well-stocked, unexpired medicine. -/
def mA : Medicine :=
  { id := 1, name := "Amox", quantity := 10, initialStock := 10,
    minQuantity := 3, expiryDate := 500000000 }

/-- A store holding just `mA`. -/
def dbA : DB := { medicines := [mA], nextId := 2 }

/-- An issue request for 3 units of `mA`. -/
def reqA : IssueReq := { medicineId := 1, quantityIssued := 3 }

/-- The ledger entry the issue route builds for `reqA` at time 100 by
actor 9. -/
def issA : Issuance :=
  { medicineId := 1, quantityIssued := 3, issuedBy := 9, issuedAt := 100 }

/-- An update body that restocks 5 units through `stockToAdd` and carries no
`quantity` field. -/
def bodyS : UpdateBody := { stockToAdd := some 5 }

/-- A user store holding one user. -/
def dbU : DB := { users := [{ id := 4, name := "Alice", email := "a@x.com" }] }

/-- A create request supplying barcode `B1`. -/
def reqB : CreateReq :=
  { name := "Fresh", category := "Other", quantity := 5, minQuantity := 1,
    price := 1, expiryDate := 99, barcode := some "B1" }

/-- A store whose only medicine is soft-deleted and carries barcode `B1`. -/
def dbB : DB :=
  { medicines := [{ id := 1, name := "Old", barcode := some "B1",
                    isActive := false, minQuantity := 1 }],
    nextId := 2 }

/-- A low-stock medicine expired at time 50. -/
def mC : Medicine :=
  { id := 1, name := "A", quantity := 3, minQuantity := 3, expiryDate := 50 }

/-- The medicine produced by the spec scenario `opsS`: created with 5,
issued 2, restocked 20. -/
def mS : Medicine :=
  { id := 0, name := "M", category := "Other", quantity := 23,
    initialStock := 25, minQuantity := 10, price := 1,
    expiryDate := 999999999999, createdBy := 9, updatedBy := some 9 }

/-- The scenario of spec section 8: create with quantity 5, issue 2,
restock 20 (sending the new total as the body quantity). -/
def opsS : List Op :=
  [.create { name := "M", category := "Other", quantity := 5,
             minQuantity := 10, price := 1,
             expiryDate := 999999999999 } 9,
   .issue { medicineId := 0, quantityIssued := 2 } 9,
   .update 0 { quantity := some 23, stockToAdd := some 20 } 9]

/-! ## Helper lemmas -/

theorem findById_mem {l : List Medicine} {i : Nat} {m : Medicine}
    (h : findById l i = some m) : m ∈ l :=
  List.mem_of_find?_eq_some h

theorem findById_id {l : List Medicine} {i : Nat} {m : Medicine}
    (h : findById l i = some m) : m.id = i := by
  have := List.find?_some h
  simpa using this

theorem mem_saveMed {l : List Medicine} {u m' : Medicine}
    (h : m' ∈ saveMed l u) : m' = u ∨ m' ∈ l := by
  simp only [saveMed, List.mem_map] at h
  obtain ⟨x, hx, heq⟩ := h
  by_cases hid : x.id = u.id
  · left
    rw [if_pos hid] at heq
    exact heq.symm
  · right
    rw [if_neg hid] at heq
    exact heq ▸ hx

theorem findById_saveMed {l : List Medicine} {u : Medicine}
    (h : (findById l u.id).isSome = true) :
    findById (saveMed l u) u.id = some u := by
  induction l with
  | nil => simp [findById] at h
  | cons x xs ih =>
      by_cases hx : x.id = u.id
      · simp only [findById, saveMed, List.map_cons, if_pos hx]
        rw [List.find?_cons_of_pos]
        simp
      · simp only [findById, saveMed, List.map_cons, if_neg hx] at h ⊢
        rw [List.find?_cons_of_neg _ (by simpa using hx)] at h ⊢
        exact ih h

theorem dropWhile_append_of_all {α : Type} (p : α → Bool) (l1 l2 : List α)
    (h : ∀ x ∈ l1, p x = true) :
    (l1 ++ l2).dropWhile p = l2.dropWhile p := by
  induction l1 with
  | nil => simp
  | cons a as ih =>
      rw [List.cons_append, List.dropWhile_cons, if_pos (h a (by simp))]
      exact ih fun x hx => h x (by simp [hx])

theorem mem_of_mem_dropWhile {α : Type} {p : α → Bool} {l : List α} {x : α}
    (h : x ∈ l.dropWhile p) : x ∈ l := by
  induction l with
  | nil => simp at h
  | cons a as ih =>
      rw [List.dropWhile_cons] at h
      split at h
      · exact List.mem_cons_of_mem _ (ih h)
      · exact h

theorem filter_eq_nil_of_all {α : Type} {q : α → Bool} {l : List α}
    (h : ∀ x ∈ l, q x = false) : l.filter q = [] := by
  induction l with
  | nil => rfl
  | cons a as ih =>
      rw [List.filter_cons, if_neg (by simp [h a (by simp)])]
      exact ih fun x hx => h x (by simp [hx])

theorem stockCheckEmissions_types {m : Medicine} {t : Nat} {now : Int}
    {a : AlertDoc} (h : a ∈ stockCheckEmissions m t now) :
    a.type = "stock_low" ∨ a.type = "medicine_expiring" ∨
      a.type = "medicine_expired" := by
  unfold stockCheckEmissions at h
  simp only [List.mem_append] at h
  rcases h with (h | h) | h
  · split at h
    · simp [medicineAlertDoc, medicineAlertTemplate] at h
      subst h
      left
      rfl
    · simp at h
  · split at h
    · simp [medicineAlertDoc, medicineAlertTemplate] at h
      subst h
      right
      left
      rfl
    · simp at h
  · split at h
    · simp [medicineAlertDoc, medicineAlertTemplate] at h
      subst h
      right
      right
      rfl
    · simp at h

theorem filter_stockEntry_map_stockCheck (m2 : Medicine) (t : Nat) (now : Int) :
    ((stockCheckEmissions m2 t now).map WriteEvent.alertSave).filter
      isStockEntryWrite = [] := by
  apply filter_eq_nil_of_all
  intro x hx
  simp only [List.mem_map] at hx
  obtain ⟨a, ha, rfl⟩ := hx
  rcases stockCheckEmissions_types ha with h | h | h <;>
    simp [isStockEntryWrite, h]

theorem filter_stockEntry_dropWhile_stockCheck (m2 : Medicine) (t : Nat)
    (now : Int) :
    (((stockCheckEmissions m2 t now).map WriteEvent.alertSave).dropWhile
      fun e => !isStockCheckWrite e).filter isStockEntryWrite = [] := by
  apply filter_eq_nil_of_all
  intro x hx
  have hx2 := mem_of_mem_dropWhile hx
  simp only [List.mem_map] at hx2
  obtain ⟨a, ha, rfl⟩ := hx2
  rcases stockCheckEmissions_types ha with h | h | h <;>
    simp [isStockEntryWrite, h]

theorem stockSound_issuancesPost
    (db : DB) (req : IssueReq) (actor : Nat) (now : Int) (iol ioa : Bool)
    (h : ∀ m ∈ db.medicines, stockSound m = true) :
    ∀ m' ∈ (issuancesPost db req actor now iol ioa).2.1.medicines,
      stockSound m' = true := by
  intro m' hm'
  unfold issuancesPost at hm'
  split at hm'
  · exact h m' hm'
  rename_i hv
  have hvr : issueReqValid req = true := by simpa using hv
  split at hm'
  · exact h m' hm'
  rename_i medicine hf
  split at hm'
  · exact h m' hm'
  split at hm'
  · exact h m' hm'
  rename_i hq
  split at hm'
  · exact h m' hm'
  simp only at hm'
  rcases mem_saveMed hm' with hu | hold
  · subst hu
    have hs := h medicine (findById_mem hf)
    have h1 : (1:Int) ≤ req.quantityIssued := by
      simp only [issueReqValid, Bool.and_eq_true, decide_eq_true_eq] at hvr
      exact hvr.1.1.1.2
    simp only [not_lt] at hq
    simp only [stockSound, Bool.and_eq_true, decide_eq_true_eq] at hs ⊢
    omega
  · exact h m' hold

theorem stockSound_medicinesPost
    (db : DB) (req : CreateReq) (actor : Nat) (now : Int) (iol ioa : Bool)
    (h : ∀ m ∈ db.medicines, stockSound m = true) :
    ∀ m' ∈ (medicinesPost db req actor now iol ioa).2.1.medicines,
      stockSound m' = true := by
  intro m' hm'
  unfold medicinesPost at hm'
  split at hm'
  · exact h m' hm'
  rename_i hv
  have hvr : createReqValid req = true := by simpa using hv
  split at hm'
  · exact h m' hm'
  simp only at hm'
  split at hm'
  · exact h m' hm'
  simp only [List.mem_append, List.mem_singleton] at hm'
  rcases hm' with hold | hnew
  · exact h m' hold
  · subst hnew
    have hq : (0:Int) ≤ req.quantity := by
      simp only [createReqValid, Bool.and_eq_true, decide_eq_true_eq] at hvr
      omega
    simp only [stockSound, Bool.and_eq_true, decide_eq_true_eq]
    omega

theorem stockSound_medicinesPut
    (db : DB) (id : Nat) (body : UpdateBody) (actor : Nat) (now : Int)
    (iol ioa : Bool)
    (h : ∀ m ∈ db.medicines, stockSound m = true) :
    ∀ m' ∈ (medicinesPut db id body actor now iol ioa).2.1.medicines,
      stockSound m' = true := by
  intro m' hm'
  unfold medicinesPut at hm'
  split at hm'
  · exact h m' hm'
  split at hm'
  · exact h m' hm'
  rename_i medicine hf
  split at hm'
  · exact h m' hm'
  split at hm'
  · exact h m' hm'
  simp only at hm'
  split at hm' <;>
  [skip; skip] <;>
  · by_cases hic :
      (!decide ((body.barcode.orElse fun _ => medicine.barcode) = medicine.barcode) &&
        barcodeIndexConflict db.medicines (some medicine.id)
          (body.barcode.orElse fun _ => medicine.barcode)) = true
    · rw [if_pos hic] at hm'
      exact h m' hm'
    · rw [if_neg hic] at hm'
      simp only at hm'
      rcases mem_saveMed hm' with hu | hold
      · subst hu
        have hs := h medicine (findById_mem hf)
        simp only [stockSound, Bool.and_eq_true, decide_eq_true_eq] at hs ⊢
        omega
      · exact h m' hold

theorem stockSound_medicinesDelete
    (db : DB) (id : Nat) (actor : Nat) (iol : Bool)
    (h : ∀ m ∈ db.medicines, stockSound m = true) :
    ∀ m' ∈ (medicinesDelete db id actor iol).2.1.medicines,
      stockSound m' = true := by
  intro m' hm'
  unfold medicinesDelete at hm'
  split at hm'
  · exact h m' hm'
  rename_i medicine hf
  split at hm'
  · exact h m' hm'
  simp only at hm'
  rcases mem_saveMed hm' with hu | hold
  · subst hu
    have hs := h medicine (findById_mem hf)
    simpa only [stockSound, Bool.and_eq_true, decide_eq_true_eq] using hs
  · exact h m' hold

theorem stockSound_runOps
    (now : Int) (iol ioa : Bool) (ops : List Op) (db : DB)
    (h : ∀ m ∈ db.medicines, stockSound m = true) :
    ∀ m' ∈ (runOps now iol ioa ops db).medicines, stockSound m' = true := by
  induction ops generalizing db with
  | nil => exact h
  | cons op rest ih =>
      refine ih (applyOp now iol ioa db op) ?_
      cases op with
      | create req actor => exact stockSound_medicinesPost db req actor now iol ioa h
      | update id body actor => exact stockSound_medicinesPut db id body actor now iol ioa h
      | issue req actor => exact stockSound_issuancesPost db req actor now iol ioa h
      | softDelete id actor => exact stockSound_medicinesDelete db id actor iol h

/-- C1: issuing quantity `q` against an active, unexpired medicine holding
`n ≥ q` succeeds (201 with the ledger entry) and leaves on-hand `n − q`;
issuing `q > n` is rejected with the insufficient-stock message reporting
available and requested amounts, and the store is unchanged. -/
theorem c1_issue_decrement_or_reject
    (db : DB) (req : IssueReq) (actor : Nat) (now : Int) (ioLog ioAlert : Bool)
    (m : Medicine)
    (hv : issueReqValid req = true)
    (hf : findById db.medicines req.medicineId = some m)
    (ha : m.isActive = true) :
    (req.quantityIssued ≤ m.quantity → now < m.expiryDate →
      (issuancesPost db req actor now ioLog ioAlert).1 =
        .created { medicineId := req.medicineId, issuedTo := req.issuedTo,
                   recipientName := req.recipientName,
                   recipientID := req.recipientID,
                   quantityIssued := req.quantityIssued,
                   prescribedBy := req.prescribedBy, notes := req.notes,
                   issuedBy := actor, issuedAt := now } ∧
      findById (issuancesPost db req actor now ioLog ioAlert).2.1.medicines
          req.medicineId =
        some { m with quantity := m.quantity - req.quantityIssued,
                      updatedBy := some actor }) ∧
    (m.quantity < req.quantityIssued →
      (issuancesPost db req actor now ioLog ioAlert).1 =
        .badRequest (insufficientMsg m.quantity req.quantityIssued) ∧
      (issuancesPost db req actor now ioLog ioAlert).2.1 = db) := by
  have hid := findById_id hf
  constructor
  · intro hq hexp
    have h1 : ¬ (m.quantity < req.quantityIssued) := by omega
    have h2 : ¬ (m.expiryDate ≤ now) := by omega
    unfold issuancesPost
    rw [hv, hf]
    simp only [Bool.not_true, Bool.false_eq_true, if_false, ha, h1, h2, if_true]
    refine ⟨trivial, ?_⟩
    have hf2 : findById db.medicines m.id = some m := by rw [hid]; exact hf
    rw [← hid]
    exact findById_saveMed (by rw [show ({ m with
      quantity := m.quantity - req.quantityIssued,
      updatedBy := some actor } : Medicine).id = m.id from rfl, hf2]; rfl)
  · intro hq
    unfold issuancesPost
    rw [hv, hf]
    simp only [Bool.not_true, Bool.false_eq_true, if_false, ha, hq, if_true]
    exact ⟨trivial, trivial⟩

/-- Witness for C1 at a concrete input: issuing 3 of 10 units succeeds and
leaves 7. -/
theorem c1_witness :
    (issuancesPost dbA reqA 9 100 true true).1 = .created issA ∧
    findById (issuancesPost dbA reqA 9 100 true true).2.1.medicines 1 =
      some { mA with quantity := 7, updatedBy := some 9 } := by
  have h := (c1_issue_decrement_or_reject dbA reqA 9 100 true true mA
    (by decide) (by decide) (by decide)).1 (by decide) (by decide)
  exact ⟨h.1, h.2⟩

/-- Counterexample to C2 as stated: on a successful issue the write sequence
contains both a ledger append and a stock decrement, but the decrement does
NOT precede the append (the ledger entry is saved first, at index 0; the
decrement is at index 1). -/
theorem c2_counterexample :
    (issuancesPost dbA reqA 9 100 true true).1 = .created issA ∧
    (issuancesPost dbA reqA 9 100 true true).2.2.any isLedgerAppend = true ∧
    (issuancesPost dbA reqA 9 100 true true).2.2.any isStockDecrement = true ∧
    decrementPrecedesAppend (issuancesPost dbA reqA 9 100 true true).2.2 =
      false := by
  decide

/-- C2 amended: on every successful issue the write sequence starts with the
ledger append, immediately followed by the stock decrement (so the append
precedes the decrement), and nothing later in the sequence is an append or a
decrement; and the issue route is the only write path that ever decreases a
medicine quantity — the update, create and soft-delete routes never emit a
decrementing medicine save. -/
theorem c2_amended :
    (∀ (db : DB) (req : IssueReq) (actor : Nat) (now : Int) (iol ioa : Bool)
        (i : Issuance),
      (issuancesPost db req actor now iol ioa).1 = .created i →
      ∃ oldQ u rest,
        (issuancesPost db req actor now iol ioa).2.2 =
          .issuanceSave i :: .medicineSave oldQ u :: rest ∧
        u.quantity < oldQ ∧
        (∀ e ∈ rest, isLedgerAppend e = false ∧ isStockDecrement e = false)) ∧
    (∀ db id body actor now iol ioa,
      ∀ e ∈ (medicinesPut db id body actor now iol ioa).2.2,
        isStockDecrement e = false) ∧
    (∀ db req actor now iol ioa,
      ∀ e ∈ (medicinesPost db req actor now iol ioa).2.2,
        isStockDecrement e = false) ∧
    (∀ db id actor iol,
      ∀ e ∈ (medicinesDelete db id actor iol).2.2,
        isStockDecrement e = false) := by
  refine ⟨?_, ?_, ?_, ?_⟩
  · intro db req actor now iol ioa i hc
    unfold issuancesPost at hc ⊢
    split at hc
    · exact absurd hc (by simp)
    rename_i hv
    have hvr : issueReqValid req = true := by simpa using hv
    split at hc
    · exact absurd hc (by simp)
    rename_i medicine hf
    split at hc
    · exact absurd hc (by simp)
    rename_i hact
    split at hc
    · exact absurd hc (by simp)
    rename_i hq
    split at hc
    · exact absurd hc (by simp)
    rename_i hexp
    simp only at hc
    have hiq : (1:Int) ≤ req.quantityIssued := by
      simp only [issueReqValid, Bool.and_eq_true, decide_eq_true_eq] at hvr
      exact hvr.1.1.1.2
    have hieq :
        ({ medicineId := req.medicineId, issuedTo := req.issuedTo,
           recipientName := req.recipientName, recipientID := req.recipientID,
           quantityIssued := req.quantityIssued,
           prescribedBy := req.prescribedBy, notes := req.notes,
           issuedBy := actor, issuedAt := now } : Issuance) = i := by
      cases hc
      rfl
    subst hieq
    rw [if_neg hv, if_neg hact, if_neg hq, if_neg hexp]
    simp only [List.cons_append, List.nil_append]
    refine ⟨_, _, _, rfl, ?_, ?_⟩
    · simp only
      omega
    · intro e he
      simp only [List.mem_cons, List.mem_map] at he
      rcases he with rfl | ⟨a, _, rfl⟩
      · exact ⟨rfl, rfl⟩
      · exact ⟨rfl, rfl⟩
  · intro db id body actor now iol ioa e he
    unfold medicinesPut at he
    split at he
    · simp at he
    split at he
    · simp at he
    rename_i medicine hf
    split at he
    · simp at he
    split at he
    · simp at he
    simp only at he
    split at he <;>
    [skip; skip] <;>
    · by_cases hic :
        (!decide ((body.barcode.orElse fun _ => medicine.barcode) = medicine.barcode) &&
          barcodeIndexConflict db.medicines (some medicine.id)
            (body.barcode.orElse fun _ => medicine.barcode)) = true
      · rw [if_pos hic] at he
        simp at he
      · rw [if_neg hic] at he
        simp only [List.cons_append, List.nil_append, List.mem_cons,
          List.mem_map] at he
        rcases he with rfl | rfl | ⟨a, _, rfl⟩
        · simp only [isStockDecrement, decide_eq_false_iff_not, not_lt]
          omega
        · rfl
        · rfl
  · intro db req actor now iol ioa e he
    unfold medicinesPost at he
    split at he
    · simp at he
    split at he
    · simp at he
    simp only at he
    split at he
    · simp at he
    simp only [List.cons_append, List.nil_append, List.mem_cons,
      List.mem_map] at he
    rcases he with rfl | rfl | ⟨a, _, rfl⟩
    · rfl
    · rfl
    · rfl
  · intro db id actor iol e he
    unfold medicinesDelete at he
    split at he
    · simp at he
    rename_i medicine hf
    split at he
    · simp at he
    simp only [List.mem_cons, List.not_mem_nil] at he
    rcases he with rfl | rfl | h
    · simp only [isStockDecrement, decide_eq_false_iff_not, not_lt]
      omega
    · rfl
    · exact absurd h (by simp)

/-- Witness for C2 amended at concrete inputs: the successful issue of
`reqA` has the append-then-decrement head shape, and the restocking update
`bodyS` emits a non-decrementing medicine save. -/
theorem c2_witness :
    (∃ oldQ u rest,
       (issuancesPost dbA reqA 9 100 true true).2.2 =
         .issuanceSave issA :: .medicineSave oldQ u :: rest ∧
       u.quantity < oldQ ∧
       (∀ e ∈ rest, isLedgerAppend e = false ∧ isStockDecrement e = false)) ∧
    isStockDecrement
      (WriteEvent.medicineSave 10
        { mA with quantity := 15, initialStock := 15, updatedBy := some 9 }) =
      false := by
  refine ⟨c2_amended.1 dbA reqA 9 100 true true issA (by decide), ?_⟩
  exact c2_amended.2.1 dbA 1 bodyS 9 100 true true _ (by decide)

/-- C10: when stock is insufficient the route answers with the
insufficient-stock error — the expiry check is not reached, so an expired
medicine with insufficient stock reports insufficient stock — and in either
failure case the state is unchanged and no write is attempted. -/
theorem c10_insufficient_precedence_no_write
    (db : DB) (req : IssueReq) (actor : Nat) (now : Int) (ioLog ioAlert : Bool)
    (m : Medicine)
    (hv : issueReqValid req = true)
    (hf : findById db.medicines req.medicineId = some m)
    (ha : m.isActive = true) :
    (m.quantity < req.quantityIssued →
      (issuancesPost db req actor now ioLog ioAlert).1 =
        .badRequest (insufficientMsg m.quantity req.quantityIssued) ∧
      (issuancesPost db req actor now ioLog ioAlert).2.1 = db ∧
      (issuancesPost db req actor now ioLog ioAlert).2.2 = []) ∧
    (req.quantityIssued ≤ m.quantity → m.expiryDate ≤ now →
      (issuancesPost db req actor now ioLog ioAlert).1 =
        .badRequest "Cannot issue expired medicine" ∧
      (issuancesPost db req actor now ioLog ioAlert).2.1 = db ∧
      (issuancesPost db req actor now ioLog ioAlert).2.2 = []) := by
  constructor
  · intro hq
    unfold issuancesPost
    rw [hv, hf]
    simp only [Bool.not_true, Bool.false_eq_true, if_false, ha, hq, if_true]
    exact ⟨trivial, trivial, trivial⟩
  · intro hq hexp
    have h1 : ¬ (m.quantity < req.quantityIssued) := by omega
    unfold issuancesPost
    rw [hv, hf]
    simp only [Bool.not_true, Bool.false_eq_true, if_false, ha, h1, hexp, if_true]
    exact ⟨trivial, trivial, trivial⟩

/-- Witness for C10 at a concrete input where the medicine is BOTH expired
and short of stock: the answer is the insufficient-stock error; with enough
stock the same expired medicine gets the expired error; no writes either
way. -/
theorem c10_witness :
    (mA.expiryDate ≤ 600000000 ∧ mA.quantity < 11 ∧
      (issuancesPost dbA { reqA with quantityIssued := 11 } 9 600000000 true true).1 =
        .badRequest (insufficientMsg 10 11) ∧
      (issuancesPost dbA { reqA with quantityIssued := 11 } 9 600000000 true true).2.1 = dbA ∧
      (issuancesPost dbA { reqA with quantityIssued := 11 } 9 600000000 true true).2.2 = []) ∧
    ((issuancesPost dbA reqA 9 600000000 true true).1 =
        .badRequest "Cannot issue expired medicine" ∧
      (issuancesPost dbA reqA 9 600000000 true true).2.1 = dbA ∧
      (issuancesPost dbA reqA 9 600000000 true true).2.2 = []) := by
  constructor
  · refine ⟨by decide, by decide, ?_⟩
    exact (c10_insufficient_precedence_no_write dbA { reqA with quantityIssued := 11 }
      9 600000000 true true mA (by decide) (by decide) (by decide)).1 (by decide)
  · exact (c10_insufficient_precedence_no_write dbA reqA
      9 600000000 true true mA (by decide) (by decide) (by decide)).2
      (by decide) (by decide)

/-- Counterexample to C6 as stated: at the boundary `expiryDate = now` the stock-check policy classifies the medicine expired and not expiring-soon, while the expiry report classifies it NOT expired and expiring-soon. -/
theorem c6_counterexample :
    policyExpired 0 0 = true ∧ reportExpired 0 0 = false ∧
    policyExpiring 0 0 = false ∧ reportExpiringSoon 0 0 = true := by
  decide

/-- C6 amended: the 30-day expiring-soon predicate of the stock-check policy agrees everywhere with the dashboard query, the listing/stock-report filter and the model virtual `isExpiringSoon`; the expiry-report route agrees with the policy at every instant EXCEPT exactly `expiryDate = now`, where the report uses `< now` / `>= now` and the policy uses `<= now` / `> now`. -/
theorem c6_amended (now e : Int) :
    (policyExpiring now e = dashboardExpiring now e) ∧
    (policyExpiring now e = listingExpiring now e) ∧
    (policyExpiring now e = Medicine.isExpiringSoon now { id := 0, expiryDate := e }) ∧
    (e ≠ now →
      policyExpired now e = reportExpired now e ∧
      policyExpiring now e = reportExpiringSoon now e) ∧
    (policyExpired now now = true ∧ reportExpired now now = false ∧
     policyExpiring now now = false ∧ reportExpiringSoon now now = true) := by
  refine ⟨rfl, rfl, rfl, ?_, ?_, ?_, ?_, ?_⟩
  · intro hne
    constructor
    · simp only [policyExpired, reportExpired, decide_eq_decide]
      omega
    · simp only [policyExpiring, reportExpiringSoon]
      rw [Bool.eq_iff_iff]
      simp only [Bool.and_eq_true, decide_eq_true_eq]
      omega
  · simp [policyExpired]
  · simp [reportExpired]
  · simp [policyExpiring]
  · simp only [reportExpiringSoon, addDays, msPerDay, Bool.and_eq_true,
      decide_eq_true_eq]
    omega

/-- Witness for C6 amended away from the boundary: at `expiryDate = 99`, `now = 100`, policy and report agree. -/
theorem c6_witness :
    policyExpired 100 99 = reportExpired 100 99 ∧
    policyExpiring 100 99 = reportExpiringSoon 100 99 := by
  exact (c6_amended 100 99).2.2.2.1 (by decide)

/-- C5: the user-updated path is broken in the code. A successful user update persists NO alert: `createUserAlert` with action updated builds type `user_updated`, which the Alert schema enum does not contain, so the save fails validation and `createAlert` swallows the error. The added and deleted paths do persist one success/warning alert whose message contains the user name, and failed operations (here: not found) touch nothing. -/
theorem c5_user_updated_alert_never_persisted :
    (usersPut dbU 4 { name := some "Alicia" } 9 true true).1 =
      .ok { id := 4, name := "Alicia", email := "a@x.com" } ∧
    (usersPut dbU 4 { name := some "Alicia" } 9 true true).2.1.alerts = [] ∧
    createUserAlert "updated" "Alicia" 4 9 true = .ok none ∧
    alertTypeEnum.contains "user_updated" = false ∧
    createUserAlert "added" "Alice" 4 9 true =
      .ok (some { type := "user_added", title := "New User Added",
                  message := "New user \"Alice\" has been added to the system",
                  severity := "success", entityType := "User",
                  entityId := 4, triggeredBy := 9 }) ∧
    createUserAlert "deleted" "Alice" 4 9 true =
      .ok (some { type := "user_deleted", title := "User Deleted",
                  message := "User \"Alice\" has been removed from the system",
                  severity := "warning", entityType := "User",
                  entityId := 4, triggeredBy := 9 }) ∧
    (usersPut dbU 5 { name := some "Alicia" } 9 true true).1 = .notFound ∧
    (usersPut dbU 5 { name := some "Alicia" } 9 true true).2.1 = dbU := by
  refine ⟨rfl, rfl, rfl, rfl, rfl, rfl, rfl, rfl⟩

/-- C7: the active-scoped application check passes (no ACTIVE record carries barcode B1), yet the create is still rejected with the duplicate-barcode error because the schema-level unique sparse index on barcode is global and the only record carrying B1 is soft-deleted; a fresh barcode succeeds. -/
theorem c7_soft_deleted_barcode_blocks_reuse :
    activeBarcodeExists dbB.medicines "B1" = false ∧
    (dbB.medicines.any fun m =>
      decide (m.barcode = some "B1") && !m.isActive) = true ∧
    (medicinesPost dbB reqB 9 0 true true).1 =
      .badRequest "Medicine with this barcode already exists" ∧
    (medicinesPost dbB reqB 9 0 true true).2.1 = dbB ∧
    (medicinesPost dbB { reqB with barcode := some "B2" } 9 0 true true).1 =
      .created { id := 2, name := "Fresh", barcode := some "B2",
                 category := "Other", quantity := 5, initialStock := 5,
                 minQuantity := 1, price := 1, expiryDate := 99,
                 createdBy := 9 } := by
  refine ⟨rfl, rfl, rfl, rfl, rfl⟩

/-- C3: the stock-check policy emits exactly one `stock_low` alert iff `quantity <= minQuantity` (not zero, not two), exactly one `medicine_expiring` iff `now < expiryDate <= now + 30d`, and exactly one `medicine_expired` iff `expiryDate <= now`; `now + 30d` is expiring-soon, `now + 31d` is neither, at-or-before `now` is expired and not expiring-soon, and expired/expiring-soon are mutually exclusive. -/
theorem c3_stock_check_policy (m : Medicine) (trig : Nat) (now : Int) :
    ((stockCheckEmissions m trig now).countP
        (fun a => decide (a.type = "stock_low")) =
      if m.quantity ≤ m.minQuantity then 1 else 0) ∧
    ((stockCheckEmissions m trig now).countP
        (fun a => decide (a.type = "medicine_expiring")) =
      if policyExpiring now m.expiryDate = true then 1 else 0) ∧
    ((stockCheckEmissions m trig now).countP
        (fun a => decide (a.type = "medicine_expired")) =
      if policyExpired now m.expiryDate = true then 1 else 0) ∧
    (policyExpiring now (addDays now 30) = true ∧
     policyExpired now (addDays now 30) = false) ∧
    (policyExpiring now (addDays now 31) = false ∧
     policyExpired now (addDays now 31) = false) ∧
    (∀ e : Int, e ≤ now → policyExpired now e = true ∧ policyExpiring now e = false) ∧
    (∀ e : Int, (policyExpiring now e && policyExpired now e) = false) := by
  refine ⟨?_, ?_, ?_, ?_, ?_, ?_, ?_⟩
  · by_cases h1 : m.quantity ≤ m.minQuantity <;>
    by_cases h2 : m.expiryDate ≤ addDays now 30 ∧ m.expiryDate > now <;>
    by_cases h3 : m.expiryDate ≤ now <;>
    simp [stockCheckEmissions, h1, h2, h3, medicineAlertDoc,
      medicineAlertTemplate, List.countP_cons, List.countP_nil]
  · by_cases h1 : m.quantity ≤ m.minQuantity <;>
    by_cases h2 : m.expiryDate ≤ addDays now 30 ∧ m.expiryDate > now <;>
    by_cases h3 : m.expiryDate ≤ now <;>
    simp [stockCheckEmissions, h1, h2, h3, medicineAlertDoc,
      medicineAlertTemplate, List.countP_cons, List.countP_nil,
      policyExpiring, Bool.and_eq_true, decide_eq_true_eq]
  · by_cases h1 : m.quantity ≤ m.minQuantity <;>
    by_cases h2 : m.expiryDate ≤ addDays now 30 ∧ m.expiryDate > now <;>
    by_cases h3 : m.expiryDate ≤ now <;>
    simp [stockCheckEmissions, h1, h2, h3, medicineAlertDoc,
      medicineAlertTemplate, List.countP_cons, List.countP_nil,
      policyExpired, decide_eq_true_eq]
  · constructor
    · simp only [policyExpiring, addDays, msPerDay, Bool.and_eq_true,
        decide_eq_true_eq]
      omega
    · simp only [policyExpired, addDays, msPerDay, decide_eq_false_iff_not]
      omega
  · constructor
    · simp only [policyExpiring, addDays, msPerDay, Bool.and_eq_false_iff,
        decide_eq_false_iff_not]
      omega
    · simp only [policyExpired, addDays, msPerDay, decide_eq_false_iff_not]
      omega
  · intro e he
    constructor
    · simp [policyExpired, he]
    · have hne : ¬ (e > now) := by omega
      simp [policyExpiring, hne]
  · intro e
    by_cases hh : e ≤ now
    · have hne : ¬ (e > now) := by omega
      simp [policyExpiring, hne]
    · simp [policyExpired, hh]

/-- Witness for C3 at a concrete record that is both low-stock and expired. -/
theorem c3_witness :
    ((stockCheckEmissions mC 9 100).countP
      (fun a => decide (a.type = "stock_low")) = 1) ∧
    policyExpired 100 50 = true ∧ policyExpiring 100 50 = false := by
  have h := c3_stock_check_policy mC 9 100
  refine ⟨?_, h.2.2.2.2.2.1 50 (by decide)⟩
  simpa [mC] using h.1

/-- C9: after any sequence of create/update(restock)/issue/soft-delete operations from the empty store, every medicine satisfies `stockOut = initialStock - quantity` (the virtual), `stockOut >= 0`, and `quantity <= initialStock`: creation sets both equal, a restock adds the same positive delta to both before other field edits, an issue decreases only `quantity` within bounds. -/
theorem c9_stockout_invariant (now : Int) (iol ioa : Bool) (ops : List Op) :
    ∀ m ∈ (runOps now iol ioa ops {}).medicines,
      Medicine.stockOut m = m.initialStock - m.quantity ∧
      0 ≤ Medicine.stockOut m ∧ m.quantity ≤ m.initialStock := by
  intro m hm
  have hs := stockSound_runOps now iol ioa ops {} (by simp) m hm
  simp only [stockSound, Bool.and_eq_true, decide_eq_true_eq] at hs
  refine ⟨rfl, ?_, hs.2⟩
  simp only [Medicine.stockOut]
  omega

/-- Witness for C9 on the spec section-8 scenario (create 5, issue 2, restock 20): the resulting record has quantity 23, initialStock 25, stockOut 2. -/
theorem c9_witness :
    Medicine.stockOut mS = mS.initialStock - mS.quantity ∧
    0 ≤ Medicine.stockOut mS ∧ mS.quantity ≤ mS.initialStock := by
  exact c9_stockout_invariant 100 true true opsS mS (by decide)

/-- C8: `createAlert`, `logActivity`, `createMedicineAlert` and `createUserAlert` always return normally (`.ok`) for every input and every persistence outcome - failures are caught internally; and the response of the issue route, its medicines collection and issuance ledger do not depend on whether the alert/log side channels accept their writes. -/
theorem c8_best_effort :
    (∀ (ty ti msg ety : String) (eid trig : Nat) (sev : String) (io : Bool),
       ∃ r, createAlert ty ti msg ety eid trig sev io = .ok r) ∧
    (∀ (e : ActivityEntry) (io : Bool), logActivity e io = .ok ()) ∧
    (∀ (act nm : String) (mid trig : Nat) (info : AddInfo) (io : Bool),
       ∃ r, createMedicineAlert act nm mid trig info io = .ok r) ∧
    (∀ (act nm : String) (uid trig : Nat) (io : Bool),
       ∃ r, createUserAlert act nm uid trig io = .ok r) ∧
    (∀ (db : DB) (req : IssueReq) (actor : Nat) (now : Int) (l1 a1 l2 a2 : Bool),
       (issuancesPost db req actor now l1 a1).1 =
         (issuancesPost db req actor now l2 a2).1 ∧
       (issuancesPost db req actor now l1 a1).2.1.medicines =
         (issuancesPost db req actor now l2 a2).2.1.medicines ∧
       (issuancesPost db req actor now l1 a1).2.1.issuances =
         (issuancesPost db req actor now l2 a2).2.1.issuances) := by
  have hca : ∀ (ty ti msg ety : String) (eid trig : Nat) (sev : String)
      (io : Bool), ∃ r, createAlert ty ti msg ety eid trig sev io = .ok r := by
    intro ty ti msg ety eid trig sev io
    unfold createAlert
    cases hs : saveAlert
        { type := ty, title := ti, message := msg, severity := sev,
          entityType := ety, entityId := eid, triggeredBy := trig } io with
    | ok a => exact ⟨some a, rfl⟩
    | error e => exact ⟨none, rfl⟩
  refine ⟨hca, ?_, ?_, ?_, ?_⟩
  · intro e io
    unfold logActivity
    cases hs : saveActivity e io <;> rfl
  · intro act nm mid trig info io
    unfold createMedicineAlert
    cases ht : medicineAlertTemplate act nm info with
    | none => exact ⟨none, rfl⟩
    | some t =>
        obtain ⟨ty, ti, msg, sev⟩ := t
        obtain ⟨r, hr⟩ := hca ty ti msg "Medicine" mid trig sev io
        exact ⟨r, hr⟩
  · intro act nm uid trig io
    unfold createUserAlert
    cases ht : userAlertTemplate act nm with
    | none => exact ⟨none, rfl⟩
    | some t =>
        obtain ⟨ty, ti, msg, sev⟩ := t
        obtain ⟨r, hr⟩ := hca ty ti msg "User" uid trig sev io
        exact ⟨r, hr⟩
  · intro db req actor now l1 a1 l2 a2
    by_cases hv : issueReqValid req = true
    · cases hf : findById db.medicines req.medicineId with
      | none => simp [issuancesPost, hv, hf]
      | some med =>
          by_cases hact : med.isActive = true
          · by_cases hq : med.quantity < req.quantityIssued
            · simp [issuancesPost, hv, hf, hact, hq]
            · by_cases hexp : med.expiryDate ≤ now
              · simp [issuancesPost, hv, hf, hact, hq, hexp]
              · simp [issuancesPost, hv, hf, hact, hq, hexp]
          · have hact2 : med.isActive = false := by simpa using hact
            simp [issuancesPost, hv, hf, hact2]
    · have hv2 : issueReqValid req = false := by simpa using hv
      simp [issuancesPost, hv2]

/-- Counterexample to C4 as stated: an update that restocks through `stockToAdd` alone raises on-hand quantity from 10 to 15 and succeeds, yet NO `stock_entry` alert is written - the emission is gated on the `quantity` field of the request body, not on the actual quantity increase. -/
theorem c4_counterexample :
    (medicinesPut dbA 1 bodyS 9 100 true true).1 =
      .ok { mA with quantity := 15, initialStock := 15, updatedBy := some 9 } ∧
    (findById (medicinesPut dbA 1 bodyS 9 100 true true).2.1.medicines 1).map
        Medicine.quantity = some 15 ∧
    mA.quantity = 10 ∧
    (medicinesPut dbA 1 bodyS 9 100 true true).2.2.filter isStockEntryWrite =
      [] := by
  decide

/-- C4 amended: on a successful update the number of `stock_entry` alert writes is 1 exactly when the request body carries a (truthy) `quantity` value greater than the pre-update quantity - regardless of whether the stored quantity actually changed, which only `stockToAdd` does; when emitted it is exactly one alert whose message reports the post-update quantity, and every `stock_entry` write precedes every stock-check-policy write in the write sequence. -/
theorem c4_amended
    (db : DB) (id : Nat) (body : UpdateBody) (actor : Nat) (now : Int)
    (iol ioa : Bool) (m : Medicine) (u : Medicine)
    (hf : findById db.medicines id = some m)
    (hc : (medicinesPut db id body actor now iol ioa).1 = .ok u) :
    ((medicinesPut db id body actor now iol ioa).2.2.filter
        isStockEntryWrite).length =
      (match body.quantity with
       | some bq => if bq ≠ 0 ∧ m.quantity < bq then 1 else 0
       | none => 0) ∧
    (∀ bq, body.quantity = some bq → bq ≠ 0 → m.quantity < bq →
      (medicinesPut db id body actor now iol ioa).2.2.filter
          isStockEntryWrite =
        [WriteEvent.alertSave
          { type := "stock_entry", title := "Stock Entry Recorded",
            message := "Stock entry for \"" ++ u.name ++
              "\" has been recorded. New quantity: " ++
              jsNumOr (some u.quantity) "N/A",
            severity := "info", entityType := "Medicine", entityId := m.id,
            triggeredBy := actor }]) ∧
    (((medicinesPut db id body actor now iol ioa).2.2.dropWhile
        fun e => !isStockCheckWrite e).filter isStockEntryWrite = []) := by
  unfold medicinesPut at hc ⊢
  split at hc
  · exact absurd hc (by simp)
  rename_i hv
  split at hc
  · exact absurd hc (by simp)
  rename_i medicine hf2
  have hmeq : m = medicine := by
    rw [hf] at hf2
    exact Option.some.inj hf2
  subst hmeq
  split at hc
  · exact absurd hc (by simp)
  rename_i hact
  split at hc
  · exact absurd hc (by simp)
  rename_i hbc
  simp only at hc
  by_cases hic :
      (!decide ((body.barcode.orElse fun _ => m.barcode) = m.barcode) &&
        barcodeIndexConflict db.medicines (some m.id)
          (body.barcode.orElse fun _ => m.barcode)) = true
  · rw [if_pos hic] at hc
    exact absurd hc (by simp)
  rw [if_neg hic] at hc
  simp only at hc
  rw [UpdResp.ok.injEq] at hc
  subst hc
  rw [if_neg hv, if_neg hact, if_neg hbc]
  simp only
  rw [if_neg hic]
  simp only
  rw [List.map_append, ← List.append_assoc]
  refine ⟨?_, ?_, ?_⟩
  · cases hbq : body.quantity with
    | none =>
        simp [List.filter_append, filter_stockEntry_map_stockCheck,
          List.filter_cons, isStockEntryWrite, hbq]
    | some bq =>
        by_cases h0 : bq = 0
        · simp [List.filter_append, filter_stockEntry_map_stockCheck,
            List.filter_cons, isStockEntryWrite, hbq, h0]
        · by_cases hgt : m.quantity < bq
          · simp [List.filter_append, filter_stockEntry_map_stockCheck,
              List.filter_cons, isStockEntryWrite, hbq, h0, hgt,
              medicineAlertDoc, medicineAlertTemplate]
          · simp [List.filter_append, filter_stockEntry_map_stockCheck,
              List.filter_cons, isStockEntryWrite, hbq, h0, hgt]
  · intro bq hbq h0 hgt
    rw [hbq]
    simp [List.filter_append, filter_stockEntry_map_stockCheck,
      List.filter_cons, isStockEntryWrite, h0, hgt,
      medicineAlertDoc, medicineAlertTemplate, jsNumOr]
  · refine Eq.trans
      (congrArg (List.filter isStockEntryWrite)
        (dropWhile_append_of_all _ _ _ ?_))
      (filter_stockEntry_dropWhile_stockCheck _ _ _)
    intro x hx
    simp only [List.mem_append, List.mem_cons, List.not_mem_nil, or_false,
      List.mem_map] at hx
    rcases hx with (rfl | rfl) | ⟨a, ha, rfl⟩
    · rfl
    · rfl
    · split at ha
      · simp [medicineAlertDoc, medicineAlertTemplate] at ha
        subst ha
        rfl
      · simp at ha

/-- Witness for C4 amended: a body carrying `quantity = 50` against on-hand 10 (no `stockToAdd`) emits exactly one `stock_entry` alert reporting the UNCHANGED quantity 10, before any stock-check write. -/
theorem c4_witness :
    ((medicinesPut dbA 1 { quantity := some 50 } 9 100 true true).2.2.filter
        isStockEntryWrite).length = 1 ∧
    (medicinesPut dbA 1 { quantity := some 50 } 9 100 true true).2.2.filter
        isStockEntryWrite =
      [WriteEvent.alertSave
        { type := "stock_entry", title := "Stock Entry Recorded",
          message := "Stock entry for \"Amox\" has been recorded. New quantity: 10",
          severity := "info", entityType := "Medicine", entityId := 1,
          triggeredBy := 9 }] ∧
    (((medicinesPut dbA 1 { quantity := some 50 } 9 100 true true).2.2.dropWhile
        fun e => !isStockCheckWrite e).filter isStockEntryWrite = []) := by
  have h := c4_amended dbA 1 { quantity := some 50 } 9 100 true true mA
    { mA with updatedBy := some 9 } (by decide) (by decide)
  refine ⟨?_, ?_, h.2.2⟩
  · simpa [mA] using h.1
  · have h2 := h.2.1 50 rfl (by decide) (by decide)
    simpa [mA, jsNumOr] using h2

end APMS
